import Mathlib

set_option linter.unusedVariables false

/-!
# Verification of the HEC-RAS compliance rules engine

A shallow embedding of `src/hecras_compliance/rules/engine.py` and the
custom check handlers in `src/hecras_compliance/rules/checks/`, together
with theorems settling the frozen specification claims.

Modelling conventions:

* Python's dynamically typed values (the objects reached by reflective
  `getattr` walks, the values compared by the generic checks) are embedded
  as the inductive type `PyObj`.  IEEE floats are modelled as exact
  rationals (`ℚ`); the decimal rendering of floats in human-readable
  strings is abstracted by `ratStr` (no claim depends on numeric
  formatting).
* Python dicts with a known key set (rule dicts, handler result dicts)
  are embedded as structures whose fields are `Option`-valued.
  Tolerant access `d.get(k, default)` is `Option.getD`; strict access
  `d[k]` is `pyItem`, which raises (`Except.error`) on a missing key.
* Code that can raise (`KeyError`, `TypeError` from comparing a float to
  a non-number) returns `Except PyErr _`; code that cannot raise is a
  plain function.  The engine's `except Exception` corresponds to
  matching on `Except.error`.
-/

/-- Python exception kinds that the modelled code can raise. -/
inductive PyErr where
  | keyError (key : String)
  | typeError
deriving DecidableEq, Repr

/-- Dynamic Python values as seen by the engine: `None`, booleans, numbers
(floats/ints as exact rationals), strings, lists, and objects with named
attributes (dataclass instances). -/
inductive PyObj where
  | none
  | bool (b : Bool)
  | num (q : ℚ)
  | str (s : String)
  | list (items : List PyObj)
  | obj (attrs : List (String × PyObj))

/-- Python: `d[k]` on an optional field: strict dict/key access, `KeyError` when
the key is absent. -/
def pyItem (o : Option α) (key : String) : Except PyErr α :=
  match o with
  | some a => .ok a
  | none => .error (.keyError key)

/-- Rendering of a rational in messages.  Python renders floats in decimal
(`str(2.0) = "2.0"`); the exact digit string is abstracted here since no
claim depends on numeric formatting. -/
def ratStr (q : ℚ) : String := toString q

/-- Python: `str(value)` for message/actual-value fields.  Composite reprs are
abstracted; no claim depends on them. -/
def pyStr : PyObj → String
  | .none => "None"
  | .bool b => if b then "True" else "False"
  | .num q => ratStr q
  | .str s => s
  | .list _ => "<list>"
  | .obj _ => "<object>"

mutual

/-- Structural equality `==` between dynamic values (Python never raises
on `==`; values of unrelated types compare unequal, `bool` compares
numerically with numbers as in Python). -/
def pyEq : PyObj → PyObj → Bool
  | .none, .none => true
  | .bool a, .bool b => a == b
  | .bool a, .num b => (if a then (1 : ℚ) else 0) == b
  | .num a, .bool b => a == (if b then (1 : ℚ) else 0)
  | .num a, .num b => a == b
  | .str a, .str b => a == b
  | .list a, .list b => pyEqList a b
  | .obj a, .obj b => pyEqAttrs a b
  | _, _ => false

/-- Elementwise `==` on Python lists. -/
def pyEqList : List PyObj → List PyObj → Bool
  | [], [] => true
  | x :: xs, y :: ys => pyEq x y && pyEqList xs ys
  | _, _ => false

/-- Fieldwise `==` on dataclass instances (dataclasses compare by field). -/
def pyEqAttrs : List (String × PyObj) → List (String × PyObj) → Bool
  | [], [] => true
  | (k, v) :: xs, (k2, v2) :: ys => k == k2 && pyEq v v2 && pyEqAttrs xs ys
  | _, _ => false

end

/-- Python: `getattr(o, name, None)`: attribute lookup on an object, `None` as the
default for a missing attribute or a non-object receiver. -/
def pyGetattr (o : PyObj) (name : String) : PyObj :=
  match o with
  | .obj attrs => (attrs.lookup name).getD .none
  | _ => .none

/-- Python: `hasattr(o, "__iter__")` plus iteration: lists iterate their items,
strings iterate their characters; `None`, numbers, booleans and plain
objects are not iterable. -/
def pyIterate : PyObj → Option (List PyObj)
  | .list items => some items
  | .str s => some (s.data.map fun c => .str (String.singleton c))
  | _ => Option.none

/-- Numeric coercion used by `<=` against a float bound: numbers compare
directly, booleans compare as 0/1, everything else raises `TypeError`
(as Python does for e.g. `float <= str`). -/
def pyAsNum : PyObj → Except PyErr ℚ
  | .num q => .ok q
  | .bool b => .ok (if b then 1 else 0)
  | _ => .error .typeError

/-!
## Rule and result records (`engine.py` dataclasses and rule dicts)
-/

/-- The `parameters` mapping of a rule (`rule["parameters"]`), an open
dict whose keys depend on the check type.  Every key the code reads is a
field; an absent key is `none`.  `min`/`max` are numeric when present
(the spec's rule-definition invariant). -/
structure Params where
  min : Option ℚ := Option.none
  max : Option ℚ := Option.none
  value : Option PyObj := Option.none
  handler : Option String := Option.none
  accepted_names : Option (List String) := Option.none
  review_note : Option String := Option.none

/-- A rule dict as loaded from YAML.  Each field the engine reads is
`Option`-valued: `rule.get(k, d)` is `Option.getD`, `rule[k]` is
`pyItem`. -/
structure Rule where
  id : Option String := Option.none
  name : Option String := Option.none
  description : Option String := Option.none
  severity : Option String := Option.none
  citation : Option String := Option.none
  citation_url : Option String := Option.none
  check_type : Option String := Option.none
  applies_to : Option String := Option.none
  parameters : Option Params := Option.none

/-- The `RuleResult` dataclass: outcome of evaluating a single rule at a
single location. -/
structure RuleResult where
  rule_id : String
  rule_name : String
  status : String
  severity : String
  actual_value : String
  expected_value : String
  citation : String
  citation_url : String
  message : String
  location : String := ""
deriving DecidableEq, Repr

/-- A raw result dict returned by a custom handler.  The engine reads
`rule_id`/`rule_name`/`status`/`severity` strictly (all built-in handlers
always set them, so they are plain fields) and the rest via `.get`. -/
structure RawResult where
  rule_id : String
  rule_name : String
  status : String
  severity : String
  actual_value : Option String := Option.none
  expected_value : Option String := Option.none
  citation : Option String := Option.none
  citation_url : Option String := Option.none
  message : Option String := Option.none
  location : Option String := Option.none
deriving DecidableEq, Repr

/-!
## Model data (`parsers/geometry.py`, `parsers/flow.py`)

Only the sub-models and fields the claims exercise are embedded as typed
structures (cross-section Manning data and flow profiles/boundaries);
`plan` and `project` are carried as raw `PyObj` encodings, which is all
the reflective resolver ever sees of them.
-/

/-- Python: `ManningRegion`: Manning's n applied starting at a given station. -/
structure ManningRegion where
  n_value : ℚ
  start_station : ℚ
deriving DecidableEq, Repr

/-- Python: `BankStations`. -/
structure BankStations where
  left : ℚ
  right : ℚ
deriving DecidableEq, Repr

/-- Python: `CrossSection` (the fields the rules engine reads). -/
structure CrossSection where
  river_station : ℚ
  river : String := ""
  reach : String := ""
  description : String := ""
  manning_regions : List ManningRegion := []
  bank_stations : Option BankStations := Option.none
  expansion : ℚ := 0
  contraction : ℚ := 0
deriving DecidableEq, Repr

/-- Property `manning_n_left`: first Manning region's n, `None` when there
are no regions. -/
def CrossSection.manning_n_left (xs : CrossSection) : Option ℚ :=
  (xs.manning_regions.head?).map (·.n_value)

/-- Property `manning_n_right`: last Manning region's n, `None` when there
are no regions. -/
def CrossSection.manning_n_right (xs : CrossSection) : Option ℚ :=
  (xs.manning_regions.getLast?).map (·.n_value)

/-- Property `manning_n_channel`: first region starting at or past the
left bank station, else the last region; `None` without regions or bank
stations. -/
def CrossSection.manning_n_channel (xs : CrossSection) : Option ℚ :=
  match xs.manning_regions, xs.bank_stations with
  | [], _ => Option.none
  | _, Option.none => Option.none
  | regions, some bs =>
    match regions.find? (fun r => bs.left ≤ r.start_station) with
    | some r => some r.n_value
    | Option.none => (regions.getLast?).map (·.n_value)

/-- Python: `GeometryFile` (bridges are not referenced by any claim and are
omitted from the embedding). -/
structure GeometryFile where
  title : String := ""
  cross_sections : List CrossSection := []
deriving DecidableEq, Repr

/-- Python: `FlowProfile`: a named steady-flow profile. -/
structure FlowProfile where
  name : String
deriving DecidableEq, Repr

/-- Python: `SteadyBoundaryCondition` (fields beyond identity are irrelevant to
the claims: the handler only counts these records). -/
structure SteadyBoundaryCondition where
  river : String := ""
  reach : String := ""
  profile_number : ℤ := 0
  upstream_type : ℤ := 0
  downstream_type : ℤ := 0
deriving DecidableEq, Repr

/-- Python: `UnsteadyBoundaryCondition` (only counted by the handler). -/
structure UnsteadyBoundaryCondition where
  river : String := ""
  reach : String := ""
  river_station : String := ""
  bc_type : String := ""
deriving DecidableEq, Repr

/-- Python: `FlowFile`: parsed steady or unsteady flow data. -/
structure FlowFile where
  title : String := ""
  program_version : String := ""
  is_steady : Bool := true
  profiles : List FlowProfile := []
  steady_boundaries : List SteadyBoundaryCondition := []
  unsteady_boundaries : List UnsteadyBoundaryCondition := []
deriving DecidableEq, Repr

/-- Property `profile_names`. -/
def FlowFile.profile_names (f : FlowFile) : List String :=
  f.profiles.map (·.name)

/-- Property `num_profiles`. -/
def FlowFile.num_profiles (f : FlowFile) : Nat :=
  f.profiles.length

/-- Python: `ModelData`: container for all parsed HEC-RAS data fed into the
engine; every sub-model is optional. -/
structure ModelData where
  geometry : Option GeometryFile := Option.none
  plan : Option PyObj := Option.none
  flow : Option FlowFile := Option.none
  project : Option PyObj := Option.none

/-!
### Encoding the typed model as attribute objects

The resolver sees Python objects only through `getattr`; these encoders
present each dataclass (fields and `@property` attributes alike) as a
`PyObj.obj` attribute map.
-/

/-- Encode an optional float-valued attribute. -/
def optNum (q : Option ℚ) : PyObj :=
  match q with
  | some v => .num v
  | Option.none => .none

/-- Python: `ManningRegion` as an attribute object. -/
def ManningRegion.toPy (r : ManningRegion) : PyObj :=
  .obj [("n_value", .num r.n_value), ("start_station", .num r.start_station)]

/-- Python: `BankStations` as an attribute object. -/
def BankStations.toPy (b : BankStations) : PyObj :=
  .obj [("left", .num b.left), ("right", .num b.right)]

/-- Python: `CrossSection` as an attribute object, including the three derived
Manning `@property` attributes. -/
def CrossSection.toPy (xs : CrossSection) : PyObj :=
  .obj [("river_station", .num xs.river_station),
        ("river", .str xs.river),
        ("reach", .str xs.reach),
        ("description", .str xs.description),
        ("manning_regions", .list (xs.manning_regions.map ManningRegion.toPy)),
        ("bank_stations", match xs.bank_stations with
          | some b => b.toPy
          | Option.none => .none),
        ("expansion", .num xs.expansion),
        ("contraction", .num xs.contraction),
        ("manning_n_left", optNum xs.manning_n_left),
        ("manning_n_channel", optNum xs.manning_n_channel),
        ("manning_n_right", optNum xs.manning_n_right)]

/-- Python: `GeometryFile` as an attribute object. -/
def GeometryFile.toPy (g : GeometryFile) : PyObj :=
  .obj [("title", .str g.title),
        ("cross_sections", .list (g.cross_sections.map CrossSection.toPy))]

/-- Python: `FlowProfile` as an attribute object. -/
def FlowProfile.toPy (p : FlowProfile) : PyObj :=
  .obj [("name", .str p.name)]

/-- Python: `SteadyBoundaryCondition` as an attribute object. -/
def SteadyBoundaryCondition.toPy (b : SteadyBoundaryCondition) : PyObj :=
  .obj [("river", .str b.river), ("reach", .str b.reach)]

/-- Python: `UnsteadyBoundaryCondition` as an attribute object. -/
def UnsteadyBoundaryCondition.toPy (b : UnsteadyBoundaryCondition) : PyObj :=
  .obj [("river", .str b.river), ("reach", .str b.reach),
        ("river_station", .str b.river_station), ("bc_type", .str b.bc_type)]

/-- Python: `FlowFile` as an attribute object, including the `profile_names` and
`num_profiles` properties. -/
def FlowFile.toPy (f : FlowFile) : PyObj :=
  .obj [("title", .str f.title),
        ("program_version", .str f.program_version),
        ("is_steady", .bool f.is_steady),
        ("profiles", .list (f.profiles.map FlowProfile.toPy)),
        ("steady_boundaries", .list (f.steady_boundaries.map SteadyBoundaryCondition.toPy)),
        ("unsteady_boundaries", .list (f.unsteady_boundaries.map UnsteadyBoundaryCondition.toPy)),
        ("profile_names", .list (f.profile_names.map PyObj.str)),
        ("num_profiles", .num f.num_profiles)]

/-- Python: `ModelData` as the attribute object the resolver walks. -/
def ModelData.toPy (m : ModelData) : PyObj :=
  .obj [("geometry", match m.geometry with
          | some g => g.toPy
          | Option.none => .none),
        ("plan", m.plan.getD .none),
        ("flow", match m.flow with
          | some f => f.toPy
          | Option.none => .none),
        ("project", m.project.getD .none)]

/-!
## String primitives

Lean core's `String` functions are defined by well-founded recursion and
do not reduce in the kernel, so the Python string operations the engine
uses are embedded structurally over `List Char`.
-/

/-- Python: `s.split(sep)` for a one-character separator (Python semantics:
`"".split(".") = [""]`, empty pieces kept). -/
def splitChars (sep : Char) : List Char → List (List Char)
  | [] => [[]]
  | c :: cs =>
    match splitChars sep cs with
    | [] => [[]]
    | g :: gs => if c = sep then [] :: g :: gs else (c :: g) :: gs

/-- Python: `s.partition("[]")` restricted to what the resolver needs: `some
(before, after)` at the first occurrence of `"[]"`, `none` when the
marker is absent (Python's `(s, "", "")`). -/
def partitionBrackets : List Char → Option (List Char × List Char)
  | [] => Option.none
  | '[' :: ']' :: rest => some ([], rest)
  | c :: cs => (partitionBrackets cs).map (fun p => (c :: p.1, p.2))

/-- Python: `s.split(".")` on strings. -/
def pySplitDot (s : String) : List String :=
  (splitChars '.' s.data).map String.mk

/-- Python: `s.rstrip(".")`. -/
def rstripDot (s : String) : String :=
  ⟨(s.data.reverse.dropWhile (fun c => c = '.')).reverse⟩

/-- Python: `s.lstrip(".")`. -/
def lstripDot (s : String) : String :=
  ⟨s.data.dropWhile (fun c => c = '.')⟩

/-- Python: `s.lower()` (ASCII case folding, as in the rule/profile names). -/
def pyLower (s : String) : String :=
  ⟨s.data.map Char.toLower⟩

/-- Python: `s.strip()`: trim leading and trailing whitespace. -/
def pyStrip (s : String) : String :=
  ⟨(s.data.dropWhile Char.isWhitespace).reverse.dropWhile Char.isWhitespace |>.reverse⟩

/-- Python: `sep.join(items)`. -/
def pyJoin (sep : String) : List String → String
  | [] => ""
  | [x] => x
  | x :: xs => x ++ sep ++ pyJoin sep xs

/-!
## Path resolution (`engine.py` lines 67–115)
-/

/-- Python: `_getattr_path`: walk a dot-separated attribute path, returning
`None` on failure (`None` receivers short-circuit). -/
def _getattr_path (o : PyObj) (path : String) : PyObj :=
  (pySplitDot path).foldl
    (fun acc part =>
      match acc with
      | .none => .none
      | _ => pyGetattr acc part)
    o

/-- The two overbank pairs contributed by one collection element under
the virtual `manning_n_overbank` field: the left value tagged `LOB` and
the right value tagged `ROB`, each side skipped when it is `None`. -/
def overbankPairs (item : PyObj) (loc : String) : List (PyObj × String) :=
  (match pyGetattr item "manning_n_left" with
    | .none => []
    | left => [(left, if loc ≠ "" then loc ++ " LOB" else "LOB")]) ++
  (match pyGetattr item "manning_n_right" with
    | .none => []
    | right => [(right, if loc ≠ "" then loc ++ " ROB" else "ROB")])

/-- The location label of a collection element: `"RS <station>"` when the
element has a non-`None` `river_station`, else empty. -/
def elemLoc (item : PyObj) : String :=
  match pyGetattr item "river_station" with
  | .none => ""
  | station => "RS " ++ pyStr station

/-- The `(value, location)` pairs contributed by one collection element. -/
def elemPairs (field_path : String) (item : PyObj) : List (PyObj × String) :=
  let loc := elemLoc item
  if field_path = "manning_n_overbank" then
    overbankPairs item loc
  else
    [(_getattr_path item field_path, loc)]

/-- Python: `_resolve_values`: resolve an `applies_to` path to `(value, location)`
pairs — one entry per collection item for iterable paths (`[]` marker),
a single entry for scalar paths. -/
def _resolve_values (model : ModelData) (applies_to : String) : List (PyObj × String) :=
  match partitionBrackets applies_to.data with
  | some (before, after) =>
    let container_path := rstripDot ⟨before⟩
    let field_path := lstripDot ⟨after⟩
    let container := _getattr_path model.toPy container_path
    match pyIterate container with
    | Option.none => []
    | some items => items.flatMap (elemPairs field_path)
  | Option.none =>
    [(_getattr_path model.toPy applies_to, "")]

/-!
## Rule loading (`engine.py` lines 122–155)

File discovery and YAML decoding are I/O performed by collaborators; the
embedding starts from the decoded baseline rule list and the decoded
overlay (absent when no overlay key was given, when the overlay file does
not exist, or when loading it was skipped).
-/

/-- A decoded state overlay: the `supersedes` identifier list and the
overlay's own rules (both already defaulted to `[]` as by
`st_data.get(..., []) or []`). -/
structure Overlay where
  supersedes : List String := []
  rules : List Rule := []

/-- The comprehension `[r for r in rules if r["id"] not in supersedes]`:
strict `r["id"]` access, so a rule without an `id` raises `KeyError`. -/
def filterSuperseded (supersedes : List String) : List Rule → Except PyErr (List Rule)
  | [] => .ok []
  | r :: rs => do
    let i ← pyItem r.id "id"
    let rest ← filterSuperseded supersedes rs
    return if supersedes.contains i then rest else r :: rest

/-- Python: `load_rules` after YAML decoding: baseline only when no overlay was
found; otherwise drop superseded baseline rules (the filter only runs for
a non-empty supersede set) and append the overlay rules. -/
def load_rules (baseline : List Rule) (overlay : Option Overlay) : Except PyErr (List Rule) :=
  match overlay with
  | Option.none => .ok baseline
  | some ov => do
    let rules ←
      if ov.supersedes ≠ [] then
        filterSuperseded ov.supersedes baseline
      else
        pure baseline
    return rules ++ ov.rules

/-!
## Custom check handlers (`rules/checks/`)
-/

/-- Python: `_make_result` (`checks/profiles.py`): build a handler result dict;
reads `id`/`name`/`severity`/`citation` strictly from the rule. -/
def _make_result (rule : Rule) (status actual expected message : String) :
    Except PyErr RawResult := do
  let i ← pyItem rule.id "id"
  let n ← pyItem rule.name "name"
  let s ← pyItem rule.severity "severity"
  let c ← pyItem rule.citation "citation"
  return { rule_id := i, rule_name := n, status := status, severity := s,
           actual_value := some actual, expected_value := some expected,
           citation := some c, message := some message }

/-- Python: `check_profile_exists` (`checks/profiles.py`): at least one flow
profile must match the accepted names.  Accepted names are lower-cased
(only); profile names are stripped then lower-cased.  The PASS/FAIL
branches re-read `rule["parameters"]["accepted_names"]` strictly. -/
def check_profile_exists (rule : Rule) (model_data : ModelData) :
    Except PyErr (List RawResult) := do
  match model_data.flow with
  | Option.none => do
    let r ← _make_result rule "SKIPPED" "no flow data" ""
      "No flow file loaded; cannot check profile names."
    return [r]
  | some flow => do
    let params ← pyItem rule.parameters "parameters"
    let accepted := (params.accepted_names.getD []).map pyLower
    let profile_names := flow.profile_names
    match profile_names with
    | [] => do
      let r ← _make_result rule "SKIPPED" "no profiles"
        (pyJoin ", " (params.accepted_names.getD []))
        "Flow file contains no profiles."
      return [r]
    | _ :: _ =>
      let matched := profile_names.any (fun pn => accepted.contains (pyLower (pyStrip pn)))
      if matched then do
        let an ← pyItem params.accepted_names "accepted_names"
        let r ← _make_result rule "PASS" (pyJoin ", " profile_names)
          ("one of: " ++ pyJoin ", " an)
          ("Required profile found in: " ++ pyJoin ", " profile_names ++ ".")
        return [r]
      else do
        let an ← pyItem params.accepted_names "accepted_names"
        let r ← _make_result rule "FAIL" (pyJoin ", " profile_names)
          ("one of: " ++ pyJoin ", " an)
          ("No profile matching the required event was found. Profiles present: " ++
            pyJoin ", " profile_names ++ ".")
        return [r]

/-- Python: `check_boundary_conditions_defined` (`checks/boundaries.py`): count
boundary conditions in whichever branch (steady/unsteady) the flow data
is in; PASS when the count is positive. -/
def check_boundary_conditions_defined (rule : Rule) (model_data : ModelData) :
    Except PyErr (List RawResult) := do
  match model_data.flow with
  | Option.none => do
    let i ← pyItem rule.id "id"
    let n ← pyItem rule.name "name"
    let s ← pyItem rule.severity "severity"
    let c ← pyItem rule.citation "citation"
    return [{ rule_id := i, rule_name := n, status := "SKIPPED", severity := s,
              actual_value := some "no flow data",
              expected_value := some "boundary conditions defined",
              citation := some c,
              message := some "No flow file loaded; cannot check boundary conditions." }]
  | some flow => do
    let count := if flow.is_steady then flow.steady_boundaries.length
                 else flow.unsteady_boundaries.length
    let bc_type := if flow.is_steady then "steady" else "unsteady"
    let i ← pyItem rule.id "id"
    let n ← pyItem rule.name "name"
    let s ← pyItem rule.severity "severity"
    let c ← pyItem rule.citation "citation"
    if count > 0 then
      return [{ rule_id := i, rule_name := n, status := "PASS", severity := s,
                actual_value := some (toString count ++ " " ++ bc_type ++ " boundary conditions"),
                expected_value := some "at least 1 boundary condition",
                citation := some c,
                message := some (toString count ++ " " ++ bc_type ++ " boundary condition(s) defined.") }]
    else
      return [{ rule_id := i, rule_name := n, status := "FAIL", severity := s,
                actual_value := some ("0 " ++ bc_type ++ " boundary conditions"),
                expected_value := some "at least 1 boundary condition",
                citation := some c,
                message := some ("No " ++ bc_type ++ " boundary conditions found. Every reach endpoint must have an assigned boundary condition.") }]

/-- Python: `flag_for_manual_review` (`checks/review.py`): always one PASS result
with severity `"info"` whose message is the configured review note,
stripped.  Review notes are strings in the rule configuration, so the
source's `isinstance(note, str)` guard is always taken and the strip
always applies. -/
def flag_for_manual_review (rule : Rule) (model_data : ModelData) :
    Except PyErr (List RawResult) := do
  let params ← pyItem rule.parameters "parameters"
  let note := pyStrip (params.review_note.getD "Manual review required.")
  let i ← pyItem rule.id "id"
  let n ← pyItem rule.name "name"
  let c ← pyItem rule.citation "citation"
  return [{ rule_id := i, rule_name := n, status := "PASS", severity := "info",
            actual_value := some "flagged for review",
            expected_value := some "manual verification",
            citation := some c, message := some note }]

/-- Python: `HANDLER_REGISTRY` (`checks/__init__.py`) as a name-to-handler lookup
(`check_100yr_profile_exists` is an alias of `check_profile_exists`). -/
def handlerFor (name : String) :
    Option (Rule → ModelData → Except PyErr (List RawResult)) :=
  if name = "check_profile_exists" then some check_profile_exists
  else if name = "check_100yr_profile_exists" then some check_profile_exists
  else if name = "check_boundary_conditions_defined" then some check_boundary_conditions_defined
  else if name = "flag_for_manual_review" then some flag_for_manual_review
  else Option.none

/-!
## The compliance engine (`engine.py` lines 162–357)
-/

/-- Python: `ComplianceEngine._skipped`: a SKIPPED result for a rule (strict key
accesses on `id`/`name`/`severity`/`citation`). -/
def _skipped (rule : Rule) (reason : String) (location : String) :
    Except PyErr RuleResult := do
  let i ← pyItem rule.id "id"
  let n ← pyItem rule.name "name"
  let s ← pyItem rule.severity "severity"
  let c ← pyItem rule.citation "citation"
  return { rule_id := i, rule_name := n, status := "SKIPPED", severity := s,
           actual_value := "", expected_value := "", citation := c,
           citation_url := rule.citation_url.getD "", message := reason,
           location := location }

/-- The chained comparison `lo <= val <= hi` with float infinities for
missing bounds (`none` = `-inf` on the left, `+inf` on the right); a
non-numeric `val` raises `TypeError` exactly as comparing it to the float
bound does in Python. -/
def chainCompare (lo : Option ℚ) (val : PyObj) (hi : Option ℚ) : Except PyErr Bool := do
  let q ← pyAsNum val
  if (match lo with
      | some l => decide (l ≤ q)
      | Option.none => true) then
    return (match hi with
      | some h => decide (q ≤ h)
      | Option.none => true)
  else
    return false

/-- Rendering of a range bound in the expected-value string (`str` of the
substituted float infinity when the bound is missing). -/
def boundStr (b : Option ℚ) (inf_repr : String) : String :=
  match b with
  | some q => ratStr q
  | Option.none => inf_repr

/-- Python: `ComplianceEngine._check_range`: inclusive range check with
severity-dependent failure status. -/
def _check_range (rule : Rule) (val : PyObj) (location : String) :
    Except PyErr RuleResult := do
  let params := rule.parameters.getD {}
  let passed ← chainCompare params.min val params.max
  let s ← pyItem rule.severity "severity"
  let status := if passed then "PASS" else if s = "warning" then "WARNING" else "FAIL"
  let lo := boundStr params.min "-inf"
  let hi := boundStr params.max "inf"
  let expected := lo ++ " – " ++ hi
  let msg :=
    if passed then "Value " ++ pyStr val ++ " is within range [" ++ lo ++ ", " ++ hi ++ "]."
    else "Value " ++ pyStr val ++ " is outside range [" ++ lo ++ ", " ++ hi ++ "]."
  let i ← pyItem rule.id "id"
  let n ← pyItem rule.name "name"
  let c ← pyItem rule.citation "citation"
  return { rule_id := i, rule_name := n, status := status, severity := s,
           actual_value := pyStr val, expected_value := expected, citation := c,
           citation_url := rule.citation_url.getD "", message := msg,
           location := location }

/-- Python: `ComplianceEngine._check_exact`: equality against `parameters.value`
with the same severity-dependent failure status as the range check. -/
def _check_exact (rule : Rule) (val : PyObj) (location : String) :
    Except PyErr RuleResult := do
  let expected := (rule.parameters.getD {}).value.getD .none
  let passed := pyEq val expected
  let s ← pyItem rule.severity "severity"
  let status := if passed then "PASS" else if s = "warning" then "WARNING" else "FAIL"
  let i ← pyItem rule.id "id"
  let n ← pyItem rule.name "name"
  let c ← pyItem rule.citation "citation"
  return { rule_id := i, rule_name := n, status := status, severity := s,
           actual_value := pyStr val, expected_value := pyStr expected, citation := c,
           citation_url := rule.citation_url.getD "",
           message := "Value " ++ pyStr val ++ " " ++
             (if passed then "matches" else "does not match") ++
             " expected " ++ pyStr expected ++ ".",
           location := location }

/-- Python: `ComplianceEngine._check_exists`: always PASS once a non-`None` value
reached it. -/
def _check_exists (rule : Rule) (val : PyObj) (location : String) :
    Except PyErr RuleResult := do
  let s ← pyItem rule.severity "severity"
  let i ← pyItem rule.id "id"
  let n ← pyItem rule.name "name"
  let c ← pyItem rule.citation "citation"
  return { rule_id := i, rule_name := n, status := "PASS", severity := s,
           actual_value := pyStr val, expected_value := "present", citation := c,
           citation_url := rule.citation_url.getD "", message := "Value is present.",
           location := location }

/-- The per-location body of `_evaluate_rule`'s loop: a `None` value is
immediately SKIPPED, otherwise dispatch on the check type. -/
def evalPair (rule : Rule) (check_type : String) (vl : PyObj × String) :
    Except PyErr RuleResult :=
  match vl.1 with
  | .none => _skipped rule "Value is None" vl.2
  | v =>
    if check_type = "range" then _check_range rule v vl.2
    else if check_type = "exact" then _check_exact rule v vl.2
    else if check_type = "exists" then _check_exists rule v vl.2
    else _skipped rule ("Unknown check_type: " ++ check_type) vl.2

/-- The loop of `_evaluate_rule` over resolved pairs; the first raised
exception aborts the whole rule (nothing of the partial list survives,
as the engine extends its result list only after the rule completes). -/
def evalPairs (rule : Rule) (check_type : String) :
    List (PyObj × String) → Except PyErr (List RuleResult)
  | [] => .ok []
  | vl :: rest => do
    let r ← evalPair rule check_type vl
    let rs ← evalPairs rule check_type rest
    return r :: rs

/-- Python: `ComplianceEngine._run_custom`: dispatch to a registered handler by
name; unknown names degrade to one SKIPPED result.  Raw handler results
are converted to `RuleResult` (tolerant `.get` reads except the four
mandatory fields). -/
def _run_custom (rule : Rule) (model : ModelData) : Except PyErr (List RuleResult) := do
  let handler_name := (rule.parameters.getD {}).handler.getD ""
  match handlerFor handler_name with
  | Option.none => do
    let r ← _skipped rule ("Unknown handler: " ++ handler_name) ""
    return [r]
  | some h => do
    let raw ← h rule model
    return raw.map (fun r =>
      { rule_id := r.rule_id, rule_name := r.rule_name, status := r.status,
        severity := r.severity, actual_value := r.actual_value.getD "",
        expected_value := r.expected_value.getD "",
        citation := r.citation.getD "",
        citation_url := r.citation_url.getD (rule.citation_url.getD ""),
        message := r.message.getD "", location := r.location.getD "" })

/-- Python: `ComplianceEngine._evaluate_rule`: custom rules dispatch to the
handler registry; generic rules resolve their path and evaluate each
resolved pair, with one SKIPPED result when nothing resolved. -/
def _evaluate_rule (rule : Rule) (model : ModelData) : Except PyErr (List RuleResult) := do
  let check_type := rule.check_type.getD ""
  if check_type = "custom" then
    _run_custom rule model
  else
    let values := _resolve_values model (rule.applies_to.getD "")
    match values with
    | [] => do
      let r ← _skipped rule "Data not available" ""
      return [r]
    | _ :: _ => evalPairs rule check_type values

/-- The SKIPPED result the engine builds in its `except` branch (all
accesses tolerant). -/
def internalErrorResult (rule : Rule) : RuleResult :=
  { rule_id := rule.id.getD "?", rule_name := rule.name.getD "?",
    status := "SKIPPED", severity := rule.severity.getD "error",
    actual_value := "", expected_value := "", citation := rule.citation.getD "",
    citation_url := rule.citation_url.getD "",
    message := "Internal error evaluating rule.", location := "" }

/-- One iteration of `evaluate`'s loop: the rule's results, or the single
internal-error SKIPPED result when the rule raised. -/
def resultsForRule (rule : Rule) (model : ModelData) : List RuleResult :=
  match _evaluate_rule rule model with
  | .ok rs => rs
  | .error _ => [internalErrorResult rule]

/-- Python: `ComplianceEngine.evaluate` over an explicit rule list: run every
rule and concatenate the results in rule order.  Total by construction —
the per-rule `try`/`except` leaves no uncaught exception. -/
def evaluateRules (rules : List Rule) (model : ModelData) : List RuleResult :=
  rules.flatMap (fun r => resultsForRule r model)

/-- The engine object: its only state is the rule list loaded at
construction. -/
structure ComplianceEngine where
  rules : List Rule

/-- The `evaluate` method in state-passing form: the method reads
`self.rules` and assigns no attribute, so it returns the engine state it
was called with. -/
def ComplianceEngine.evaluate (e : ComplianceEngine) (model : ModelData) :
    List RuleResult × ComplianceEngine :=
  (evaluateRules e.rules model, e)

/-!
## Concrete instances used by witnesses and counterexamples
-/

/-- A model with every sub-model absent. -/
def mEmpty : ModelData := {}

/-- An info-severity range rule with bounds 0–1. -/
def c1Rule : Rule :=
  { id := some "RANGE-INFO", name := some "info-severity range rule",
    severity := some "info", citation := some "cite",
    check_type := some "range", applies_to := some "plan.x",
    parameters := some { min := some 0, max := some 1 } }

/-- An error-severity range rule with bounds 0–1. -/
def cwRangeRule : Rule :=
  { id := some "RANGE-ERR", name := some "error-severity range rule",
    severity := some "error", citation := some "cite",
    check_type := some "range", applies_to := some "plan.x",
    parameters := some { min := some 0, max := some 1 } }

/-- A malformed rule: its `severity` key is missing, so building any
result record for it raises `KeyError("severity")`. -/
def cFailRule : Rule :=
  { id := some "BROKEN", name := some "malformed rule",
    citation := some "cite", check_type := some "range",
    applies_to := some "plan.x" }

/-- A well-formed existence rule on a scalar path. -/
def cOkRule : Rule :=
  { id := some "OK-1", name := some "existence rule",
    severity := some "error", citation := some "cite",
    check_type := some "exists", applies_to := some "plan.x" }

/-- Baseline rule superseded by the Texas overlay in the spec scenario. -/
def cFw1Rule : Rule :=
  { id := some "FEMA-FW-001", name := some "floodway surcharge",
    severity := some "error", citation := some "44 CFR 60.3" }

/-- Baseline rule surviving the overlay merge. -/
def cXs1Rule : Rule :=
  { id := some "FEMA-XS-001", name := some "cross-section spacing",
    severity := some "warning", citation := some "44 CFR 65.6" }

/-- Overlay rule appended by the merge. -/
def cTxRule : Rule :=
  { id := some "TX-FW-001", name := some "texas floodway surcharge",
    severity := some "error", citation := some "TWDB" }

/-- The spec's supersession scenario overlay. -/
def cTxOverlay : Overlay :=
  { supersedes := ["FEMA-FW-001"], rules := [cTxRule] }

/-- A cross-section with three Manning regions (left overbank, channel,
right overbank), all values integer-scaled to stay kernel-evaluable. -/
def cXsFull (station : ℚ) : CrossSection :=
  { river_station := station,
    manning_regions := [⟨6, 0⟩, ⟨3, 10⟩, ⟨8, 90⟩],
    bank_stations := some ⟨10, 90⟩ }

/-- A model with three fully specified cross-sections. -/
def c4Model3 : ModelData :=
  { geometry := some { cross_sections := [cXsFull 100, cXsFull 200, cXsFull 300] } }

/-- A model with one cross-section that has no Manning regions, so both
overbank properties are `None`. -/
def c4NoRegionsModel : ModelData :=
  { geometry := some { cross_sections := [{ river_station := 1 }] } }

/-- A profile-existence rule whose accepted name carries leading
whitespace. -/
def c5Rule : Rule :=
  { id := some "PROF-1", name := some "profile exists",
    severity := some "error", citation := some "cite",
    check_type := some "custom",
    parameters := some { handler := some "check_profile_exists",
                         accepted_names := some [" 100yr"] } }

/-- A flow model with the single profile `"100yr"`. -/
def c5Flow : ModelData := { flow := some { profiles := [⟨"100yr"⟩] } }

/-- Parameters of the spec scenario rule: accepted names for the base
flood. -/
def c5SpecParams : Params :=
  { handler := some "check_profile_exists",
    accepted_names := some ["100yr", "1% annual chance", "base flood"] }

/-- The spec scenario rule: accepted names for the base flood. -/
def c5SpecRule : Rule :=
  { id := some "PROF-2", name := some "base flood profile",
    severity := some "error", citation := some "cite",
    check_type := some "custom",
    parameters := some c5SpecParams }

/-- A flow model with the single profile `"100YR"` (matches after
stripping and case folding the profile side). -/
def c5FlowUpper : ModelData := { flow := some { profiles := [⟨"100YR"⟩] } }

/-- A collection-path range rule over cross-section channel Manning
values. -/
def c6Rule : Rule :=
  { id := some "XS-N", name := some "channel roughness",
    severity := some "error", citation := some "cite",
    check_type := some "range",
    applies_to := some "geometry.cross_sections[].manning_n_channel",
    parameters := some { min := some 0, max := some 1 } }

/-- A manual-review rule whose note carries surrounding whitespace. -/
def c8Rule : Rule :=
  { id := some "MR-1", name := some "manual review",
    severity := some "error", citation := some "cite",
    check_type := some "custom",
    parameters := some { handler := some "flag_for_manual_review",
                         review_note := some "  Verify freeboard.  " } }

/-- A range rule with an empty parameters mapping: both bounds missing. -/
def c10Rule : Rule :=
  { id := some "RANGE-OPEN", name := some "unbounded range rule",
    severity := some "error", citation := some "cite",
    check_type := some "range", applies_to := some "plan.x",
    parameters := some {} }

/-- A range rule whose parameters omit `min` but carry `max` (one-sided
omission). -/
def c10MaxOnlyRule : Rule :=
  { id := some "RANGE-MAXONLY", name := some "max-only range rule",
    severity := some "error", citation := some "cite",
    check_type := some "range", applies_to := some "plan.x",
    parameters := some { max := some 10 } }

/-- The boolean outcome of the chained range comparison on a numeric
value, with missing bounds behaving as infinities. -/
def rangeOk (p : Params) (v : ℚ) : Bool :=
  (match p.min with
    | some l => decide (l ≤ v)
    | Option.none => true) &&
  (match p.max with
    | some h => decide (v ≤ h)
    | Option.none => true)

/-!
## Helper lemmas
-/

theorem exBind_ok {α β : Type} {x : Except PyErr α} {f : α → Except PyErr β} {b : β}
    (h : x >>= f = .ok b) : ∃ a, x = .ok a ∧ f a = .ok b := by
  cases x with
  | ok a => exact ⟨a, rfl, h⟩
  | error e => simp [Bind.bind, Except.bind] at h

theorem _skipped_eq {rule : Rule} {i n s c : String} (reason loc : String)
    (hid : rule.id = some i) (hn : rule.name = some n)
    (hs : rule.severity = some s) (hc : rule.citation = some c) :
    _skipped rule reason loc = .ok
      { rule_id := i, rule_name := n, status := "SKIPPED", severity := s,
        actual_value := "", expected_value := "", citation := c,
        citation_url := rule.citation_url.getD "", message := reason,
        location := loc } := by
  simp [_skipped, pyItem, hid, hn, hs, hc, Bind.bind, Except.bind,
    Pure.pure, Except.pure]

theorem chainCompare_num (lo hi : Option ℚ) (v : ℚ) :
    chainCompare lo (.num v) hi =
      .ok ((match lo with
        | some l => decide (l ≤ v)
        | Option.none => true) &&
        (match hi with
        | some h => decide (v ≤ h)
        | Option.none => true)) := by
  cases hl : (match lo with
    | some l => decide (l ≤ v)
    | Option.none => true) <;>
    simp [chainCompare, pyAsNum, Bind.bind, Except.bind, Pure.pure, Except.pure, hl]

theorem _check_range_num {rule : Rule} {i n s c : String} (v : ℚ) (loc : String)
    (hid : rule.id = some i) (hn : rule.name = some n)
    (hs : rule.severity = some s) (hc : rule.citation = some c) :
    ∃ r, _check_range rule (.num v) loc = .ok r ∧
      r.status = (if rangeOk (rule.parameters.getD {}) v then "PASS"
                  else if s = "warning" then "WARNING" else "FAIL") ∧
      r.severity = s ∧
      r.expected_value = boundStr (rule.parameters.getD {}).min "-inf" ++ " – " ++
        boundStr (rule.parameters.getD {}).max "inf" := by
  simp only [_check_range, chainCompare_num, pyItem, hid, hn, hs, hc,
    Bind.bind, Except.bind, Pure.pure, Except.pure]
  exact ⟨_, rfl, rfl, rfl, rfl⟩

theorem rangeOk_iff (p : Params) (v : ℚ) :
    rangeOk p v = true ↔
      (∀ lo, p.min = some lo → lo ≤ v) ∧ (∀ hi, p.max = some hi → v ≤ hi) := by
  unfold rangeOk
  cases h1 : p.min <;> cases h2 : p.max <;> simp

/-!
## Claims
-/

/-- C1, counterexample: the claim asserts that a non-error-severity rule
(including severity `"info"`) never produces a FAIL status from a range
check; but for the info-severity range rule `c1Rule` (bounds 0–1) the
out-of-range value 2 produces status FAIL. -/
theorem c1_info_severity_fails_counterexample :
    c1Rule.severity = some "info" ∧
    (_check_range c1Rule (.num 2) "").map (fun r => r.status) = .ok "FAIL" := by
  exact ⟨rfl, rfl⟩

/-- C1 (amended): for every range-type rule with numeric bounds and every
resolved numeric value, the range check passes exactly when
`min ≤ value ≤ max` (inclusive at both ends); on failure the status is
WARNING when the rule's severity is `"warning"` and FAIL for every other
severity — including `"info"`, so only warning-severity rules avoid FAIL. -/
theorem c1_range_check_semantics (rule : Rule) (ps : Params) (lo hi v : ℚ)
    (i n s c : String) (loc : String)
    (hp : rule.parameters = some ps) (hlo : ps.min = some lo) (hhi : ps.max = some hi)
    (hid : rule.id = some i) (hn : rule.name = some n)
    (hs : rule.severity = some s) (hc : rule.citation = some c) :
    ∃ r, _check_range rule (.num v) loc = .ok r ∧
      (r.status = "PASS" ↔ lo ≤ v ∧ v ≤ hi) ∧
      (¬ (lo ≤ v ∧ v ≤ hi) →
        r.status = if s = "warning" then "WARNING" else "FAIL") := by
  obtain ⟨r, hr, hst, hsev, hexp⟩ := _check_range_num v loc hid hn hs hc
  refine ⟨r, hr, ?_, ?_⟩
  · rw [hst]
    simp [rangeOk, hp, hlo, hhi]
    constructor
    · intro hpass
      by_cases h1 : lo ≤ v
      · by_cases h2 : v ≤ hi
        · exact ⟨h1, h2⟩
        · simp [h1, h2] at hpass
          split at hpass <;> simp_all
      · simp [h1] at hpass
        split at hpass <;> simp_all
    · intro ⟨h1, h2⟩
      simp [h1, h2]
  · intro hfail
    rw [hst]
    have : rangeOk (rule.parameters.getD {}) v = false := by
      simp [rangeOk, hp, hlo, hhi]
      intro h1
      by_contra h2
      exact hfail ⟨h1, le_of_not_lt (by simpa using h2)⟩
    simp [this]

/-- C1 witness: the amended theorem applied to the info-severity rule
`c1Rule` at value 2. -/
theorem c1_range_check_semantics_witness :
    ∃ r, _check_range c1Rule (.num 2) "" = .ok r ∧
      (r.status = "PASS" ↔ (0 : ℚ) ≤ 2 ∧ (2 : ℚ) ≤ 1) ∧
      (¬ ((0 : ℚ) ≤ 2 ∧ (2 : ℚ) ≤ 1) →
        r.status = if "info" = "warning" then "WARNING" else "FAIL") :=
  c1_range_check_semantics c1Rule _ 0 1 2 "RANGE-INFO" "info-severity range rule"
    "info" "cite" "" rfl rfl rfl rfl rfl rfl rfl

/-- C9: evaluating the same model twice on the same engine yields the
same result list, and the engine state is unchanged by evaluation (the
method reads `self.rules` and writes nothing). -/
theorem c9_evaluate_idempotent (e : ComplianceEngine) (m : ModelData) :
    (e.evaluate m).2 = e ∧ (e.evaluate m).1 = ((e.evaluate m).2.evaluate m).1 :=
  ⟨rfl, rfl⟩

/-- C10: a range rule whose parameters omit `min` (or `max`) substitutes
negative (or positive) infinity for the missing bound, so the comparison
on that side always passes: the check's outcome depends only on the
bounds that are present (first conjunct); a rule omitting only `min`
passes exactly when the `max` side holds, and symmetrically for an
omitted `max` (second and third conjuncts); and a rule with no bounds at
all passes for every numeric value — with the substituted infinities
visible in the expected-value string — rather than erroring (fourth
conjunct). -/
theorem c10_missing_bounds_pass (rule : Rule) (v : ℚ) (loc i n s c : String)
    (hid : rule.id = some i) (hn : rule.name = some n)
    (hs : rule.severity = some s) (hc : rule.citation = some c) :
    (∃ r, _check_range rule (.num v) loc = .ok r ∧
      (r.status = "PASS" ↔
        (∀ lo, (rule.parameters.getD {}).min = some lo → lo ≤ v) ∧
        (∀ hi, (rule.parameters.getD {}).max = some hi → v ≤ hi))) ∧
    ((rule.parameters.getD {}).min = Option.none →
      ∃ r, _check_range rule (.num v) loc = .ok r ∧
        (r.status = "PASS" ↔
          ∀ hi, (rule.parameters.getD {}).max = some hi → v ≤ hi)) ∧
    ((rule.parameters.getD {}).max = Option.none →
      ∃ r, _check_range rule (.num v) loc = .ok r ∧
        (r.status = "PASS" ↔
          ∀ lo, (rule.parameters.getD {}).min = some lo → lo ≤ v)) ∧
    ((rule.parameters.getD {}).min = Option.none →
      (rule.parameters.getD {}).max = Option.none →
      ∃ r, _check_range rule (.num v) loc = .ok r ∧ r.status = "PASS" ∧
        r.expected_value = "-inf – inf") := by
  obtain ⟨r, hr, hst, hsev, hexp⟩ := _check_range_num v loc hid hn hs hc
  have hiff : r.status = "PASS" ↔
      (∀ lo, (rule.parameters.getD {}).min = some lo → lo ≤ v) ∧
      (∀ hi, (rule.parameters.getD {}).max = some hi → v ≤ hi) := by
    rw [hst, ← rangeOk_iff]
    cases hok : rangeOk (rule.parameters.getD {}) v
    · refine iff_of_false ?_ (by simp)
      by_cases hw : s = "warning" <;> simp [hw]
    · simp
  refine ⟨⟨r, hr, hiff⟩, ?_, ?_, ?_⟩
  · intro hmin
    refine ⟨r, hr, ?_⟩
    rw [hiff]
    simp [hmin]
  · intro hmax
    refine ⟨r, hr, ?_⟩
    rw [hiff]
    simp [hmax]
  · intro hmin hmax
    refine ⟨r, hr, ?_, ?_⟩
    · rw [hiff]
      simp [hmin, hmax]
    · rw [hexp, hmin, hmax]
      rfl

/-- C10 witness: the theorem applied to `c10MaxOnlyRule` (omits `min`,
carries `max` = 10 — the one-sided omission case) at value 5, and to the
open-bounds rule `c10Rule` (both bounds missing) at value 42. -/
theorem c10_missing_bounds_pass_witness :
    ((∃ r, _check_range c10MaxOnlyRule (.num 5) "" = .ok r ∧
      (r.status = "PASS" ↔
        (∀ lo, (c10MaxOnlyRule.parameters.getD {}).min = some lo → lo ≤ 5) ∧
        (∀ hi, (c10MaxOnlyRule.parameters.getD {}).max = some hi → 5 ≤ hi))) ∧
    ((c10MaxOnlyRule.parameters.getD {}).min = Option.none →
      ∃ r, _check_range c10MaxOnlyRule (.num 5) "" = .ok r ∧
        (r.status = "PASS" ↔
          ∀ hi, (c10MaxOnlyRule.parameters.getD {}).max = some hi → 5 ≤ hi)) ∧
    ((c10MaxOnlyRule.parameters.getD {}).max = Option.none →
      ∃ r, _check_range c10MaxOnlyRule (.num 5) "" = .ok r ∧
        (r.status = "PASS" ↔
          ∀ lo, (c10MaxOnlyRule.parameters.getD {}).min = some lo → lo ≤ 5)) ∧
    ((c10MaxOnlyRule.parameters.getD {}).min = Option.none →
      (c10MaxOnlyRule.parameters.getD {}).max = Option.none →
      ∃ r, _check_range c10MaxOnlyRule (.num 5) "" = .ok r ∧ r.status = "PASS" ∧
        r.expected_value = "-inf – inf")) ∧
    ((∃ r, _check_range c10Rule (.num 42) "" = .ok r ∧
      (r.status = "PASS" ↔
        (∀ lo, (c10Rule.parameters.getD {}).min = some lo → lo ≤ 42) ∧
        (∀ hi, (c10Rule.parameters.getD {}).max = some hi → 42 ≤ hi))) ∧
    ((c10Rule.parameters.getD {}).min = Option.none →
      ∃ r, _check_range c10Rule (.num 42) "" = .ok r ∧
        (r.status = "PASS" ↔
          ∀ hi, (c10Rule.parameters.getD {}).max = some hi → 42 ≤ hi)) ∧
    ((c10Rule.parameters.getD {}).max = Option.none →
      ∃ r, _check_range c10Rule (.num 42) "" = .ok r ∧
        (r.status = "PASS" ↔
          ∀ lo, (c10Rule.parameters.getD {}).min = some lo → lo ≤ 42)) ∧
    ((c10Rule.parameters.getD {}).min = Option.none →
      (c10Rule.parameters.getD {}).max = Option.none →
      ∃ r, _check_range c10Rule (.num 42) "" = .ok r ∧ r.status = "PASS" ∧
        r.expected_value = "-inf – inf")) :=
  ⟨c10_missing_bounds_pass c10MaxOnlyRule 5 "" "RANGE-MAXONLY"
      "max-only range rule" "error" "cite" rfl rfl rfl rfl,
    c10_missing_bounds_pass c10Rule 42 "" "RANGE-OPEN"
      "unbounded range rule" "error" "cite" rfl rfl rfl rfl⟩

/-- C2: if evaluating one rule raises, `evaluate` catches it and appends
exactly one SKIPPED result for that rule, and every other rule's results
are exactly what they would be without the failing rule present.
`evaluateRules` itself is total (it returns a plain list — the per-rule
`try`/`except` leaves no uncaught exception), so it never raises. -/
theorem c2_per_rule_isolation (l1 l2 : List Rule) (rule : Rule) (m : ModelData)
    (e : PyErr) (h : _evaluate_rule rule m = .error e) :
    evaluateRules (l1 ++ rule :: l2) m =
      evaluateRules l1 m ++ internalErrorResult rule :: evaluateRules l2 m ∧
    (internalErrorResult rule).status = "SKIPPED" ∧
    evaluateRules (l1 ++ l2) m = evaluateRules l1 m ++ evaluateRules l2 m := by
  refine ⟨?_, rfl, ?_⟩
  · simp [evaluateRules, resultsForRule, h]
  · simp [evaluateRules]

/-- C2 witness: the malformed rule `cFailRule` (missing `severity`)
raises `KeyError("severity")`, is isolated between two healthy rules,
and the internal-error result is SKIPPED. -/
theorem c2_per_rule_isolation_witness :
    _evaluate_rule cFailRule mEmpty = .error (.keyError "severity") ∧
    (evaluateRules ([cOkRule] ++ cFailRule :: [cwRangeRule]) mEmpty =
      evaluateRules [cOkRule] mEmpty ++ internalErrorResult cFailRule ::
        evaluateRules [cwRangeRule] mEmpty ∧
    (internalErrorResult cFailRule).status = "SKIPPED" ∧
    evaluateRules ([cOkRule] ++ [cwRangeRule]) mEmpty =
      evaluateRules [cOkRule] mEmpty ++ evaluateRules [cwRangeRule] mEmpty) :=
  ⟨rfl, c2_per_rule_isolation [cOkRule] [cwRangeRule] cFailRule mEmpty
    (.keyError "severity") rfl⟩

theorem filterSuperseded_eq (sup : List String) (rs : List Rule)
    (h : ∀ r ∈ rs, (r.id).isSome) :
    filterSuperseded sup rs =
      .ok (rs.filter fun r => !(sup.contains (r.id.getD ""))) := by
  induction rs with
  | nil => rfl
  | cons r rest ih =>
    have hr : (r.id).isSome := h r (List.mem_cons_self _ _)
    obtain ⟨i, hi⟩ := Option.isSome_iff_exists.mp hr
    have hrest := ih (fun x hx => h x (List.mem_cons_of_mem _ hx))
    simp only [filterSuperseded, pyItem, hi, hrest, Bind.bind, Except.bind,
      Pure.pure, Except.pure, List.filter_cons, Option.getD_some]
    cases hct : sup.contains i <;> simp [hct]

/-- C3: `load_rules` with an overlay returns the baseline rules whose
identifiers are not in the overlay's supersedes set, in their original
order, followed by all overlay rules; with no matching overlay it
returns the baseline unchanged. -/
theorem c3_load_rules_merge (baseline : List Rule) (ov : Overlay)
    (h : ∀ r ∈ baseline, (r.id).isSome) :
    load_rules baseline (some ov) =
      .ok ((baseline.filter fun r => !(ov.supersedes.contains (r.id.getD ""))) ++
        ov.rules) ∧
    load_rules baseline Option.none = .ok baseline := by
  refine ⟨?_, rfl⟩
  unfold load_rules
  by_cases hsup : ov.supersedes = []
  · simp [hsup, Bind.bind, Except.bind, Pure.pure, Except.pure]
  · simp [hsup, filterSuperseded_eq ov.supersedes baseline h, Bind.bind,
      Except.bind, Pure.pure, Except.pure]

/-- C3 witness: the spec's supersession scenario — the overlay replaces
`FEMA-FW-001` with `TX-FW-001` and keeps `FEMA-XS-001`; an absent
overlay leaves the baseline unchanged. -/
theorem c3_load_rules_merge_witness :
    (load_rules [cFw1Rule, cXs1Rule] (some cTxOverlay) =
      .ok (([cFw1Rule, cXs1Rule].filter fun r =>
        !(cTxOverlay.supersedes.contains (r.id.getD ""))) ++ cTxOverlay.rules) ∧
    load_rules [cFw1Rule, cXs1Rule] Option.none = .ok [cFw1Rule, cXs1Rule]) ∧
    [cFw1Rule, cXs1Rule].filter (fun r =>
      !(cTxOverlay.supersedes.contains (r.id.getD ""))) = [cXs1Rule] :=
  ⟨c3_load_rules_merge [cFw1Rule, cXs1Rule] cTxOverlay (by decide), rfl⟩

/-- C8, counterexample: the claim says the manual-review message equals
the rule's configured review note; but for `c8Rule`, whose note carries
surrounding whitespace, the handler strips it, so the message differs
from the configured note. -/
theorem c8_note_stripped_counterexample :
    (c8Rule.parameters.map (fun p => p.review_note)) =
      some (some "  Verify freeboard.  ") ∧
    (flag_for_manual_review c8Rule mEmpty).map (fun l => l.map (fun r => r.message)) =
      .ok [some "Verify freeboard."] ∧
    ("Verify freeboard." : String) ≠ "  Verify freeboard.  " := by
  refine ⟨rfl, rfl, by decide⟩

/-- C8 (amended): for every rule whose parameters mapping is present and
every model, the manual-review handler returns exactly one result with
status PASS and severity `"info"` — regardless of the rule's own
configured severity and of any model content — whose message equals the
configured review note stripped of surrounding whitespace (defaulting to
"Manual review required." when no note is configured). -/
theorem c8_manual_review_info (rule : Rule) (m : ModelData) (ps : Params)
    (i n c : String)
    (hp : rule.parameters = some ps) (hid : rule.id = some i)
    (hn : rule.name = some n) (hc : rule.citation = some c) :
    flag_for_manual_review rule m =
      .ok [{ rule_id := i, rule_name := n, status := "PASS", severity := "info",
             actual_value := some "flagged for review",
             expected_value := some "manual verification",
             citation := some c,
             message := some (pyStrip (ps.review_note.getD "Manual review required.")) }] := by
  simp [flag_for_manual_review, pyItem, hp, hid, hn, hc, Bind.bind, Except.bind,
    Pure.pure, Except.pure]

/-- C8 witness: the amended theorem applied to `c8Rule` (error severity,
whitespace-padded note) on the empty model. -/
theorem c8_manual_review_info_witness :
    flag_for_manual_review c8Rule mEmpty =
      .ok [{ rule_id := "MR-1", rule_name := "manual review", status := "PASS",
             severity := "info", actual_value := some "flagged for review",
             expected_value := some "manual verification",
             citation := some "cite",
             message := some "Verify freeboard." }] :=
  c8_manual_review_info c8Rule mEmpty _ "MR-1" "manual review" "cite" rfl rfl rfl rfl

/-- C6: for a non-custom rule, an empty path resolution yields exactly
one SKIPPED result with message "Data not available"; a resolved pair
whose value is `None` yields a SKIPPED result with message
"Value is None" for any check type, with no generic check running on it.
Path resolution itself (`_resolve_values`) is a total function — absence
degrades to `None` values or an empty list, never an exception. -/
theorem c6_absence_degrades_to_skipped (rule : Rule) (m : ModelData)
    (i n s c : String)
    (hct : rule.check_type.getD "" ≠ "custom")
    (hid : rule.id = some i) (hn : rule.name = some n)
    (hs : rule.severity = some s) (hc : rule.citation = some c) :
    (_resolve_values m (rule.applies_to.getD "") = [] →
      _evaluate_rule rule m = .ok
        [{ rule_id := i, rule_name := n, status := "SKIPPED", severity := s,
           actual_value := "", expected_value := "", citation := c,
           citation_url := rule.citation_url.getD "",
           message := "Data not available", location := "" }]) ∧
    (∀ ct loc, evalPair rule ct (.none, loc) = .ok
      { rule_id := i, rule_name := n, status := "SKIPPED", severity := s,
        actual_value := "", expected_value := "", citation := c,
        citation_url := rule.citation_url.getD "",
        message := "Value is None", location := loc }) := by
  constructor
  · intro hres
    simp only [_evaluate_rule, if_neg hct, hres,
      _skipped_eq "Data not available" "" hid hn hs hc,
      Bind.bind, Except.bind, Pure.pure, Except.pure]
  · intro ct loc
    simp only [evalPair, _skipped_eq "Value is None" loc hid hn hs hc]

/-- C6 witness: the collection-path range rule `c6Rule` on the empty
model (no geometry) resolves to nothing and is SKIPPED with
"Data not available"; a `None` pair at a sample location is SKIPPED with
"Value is None". -/
theorem c6_absence_degrades_to_skipped_witness :
    (_resolve_values mEmpty (c6Rule.applies_to.getD "") = [] →
      _evaluate_rule c6Rule mEmpty = .ok
        [{ rule_id := "XS-N", rule_name := "channel roughness",
           status := "SKIPPED", severity := "error",
           actual_value := "", expected_value := "", citation := "cite",
           citation_url := c6Rule.citation_url.getD "",
           message := "Data not available", location := "" }]) ∧
    (∀ ct loc, evalPair c6Rule ct (.none, loc) = .ok
      { rule_id := "XS-N", rule_name := "channel roughness",
        status := "SKIPPED", severity := "error",
        actual_value := "", expected_value := "", citation := "cite",
        citation_url := c6Rule.citation_url.getD "",
        message := "Value is None", location := loc }) :=
  c6_absence_degrades_to_skipped c6Rule mEmpty "XS-N" "channel roughness"
    "error" "cite" (by decide) rfl rfl rfl rfl

/-- The spec-side description of what one cross-section contributes under
the virtual `manning_n_overbank` field: a LOB-tagged pair when the left
overbank value is present and a ROB-tagged pair when the right one is. -/
def specOverbankPairs (xs : CrossSection) : List (PyObj × String) :=
  (match xs.manning_n_left with
    | some q => [(PyObj.num q, "RS " ++ ratStr xs.river_station ++ " LOB")]
    | Option.none => []) ++
  (match xs.manning_n_right with
    | some q => [(PyObj.num q, "RS " ++ ratStr xs.river_station ++ " ROB")]
    | Option.none => [])

theorem elemPairs_overbank (xs : CrossSection) :
    elemPairs "manning_n_overbank" xs.toPy = specOverbankPairs xs := by
  have hloc : elemLoc xs.toPy = "RS " ++ ratStr xs.river_station := rfl
  have hleft : pyGetattr xs.toPy "manning_n_left" = optNum xs.manning_n_left := rfl
  have hright : pyGetattr xs.toPy "manning_n_right" = optNum xs.manning_n_right := rfl
  have hne : ("RS " ++ ratStr xs.river_station) ≠ "" := by
    intro hcon
    have hdata : ("RS " ++ ratStr xs.river_station).data = "".data := by rw [hcon]
    simp [String.data_append] at hdata
  simp only [elemPairs, if_pos rfl, overbankPairs, hloc, hleft, hright,
    specOverbankPairs]
  cases xs.manning_n_left <;> cases xs.manning_n_right <;>
    simp [optNum, hne]

theorem resolve_overbank_eq (m : ModelData) (g : GeometryFile)
    (hg : m.geometry = some g) :
    _resolve_values m "geometry.cross_sections[].manning_n_overbank" =
      g.cross_sections.flatMap specOverbankPairs := by
  rcases m with ⟨mg, mp, mf, mpr⟩
  simp only at hg
  subst hg
  show (g.cross_sections.map CrossSection.toPy).flatMap (elemPairs "manning_n_overbank") =
    g.cross_sections.flatMap specOverbankPairs
  rw [List.flatMap_map]
  exact congrArg _ (funext fun xs => elemPairs_overbank xs)

theorem specOverbankPairs_length (l : List CrossSection)
    (h : ∀ xs ∈ l, xs.manning_n_left.isSome ∧ xs.manning_n_right.isSome) :
    (l.flatMap specOverbankPairs).length = 2 * l.length := by
  induction l with
  | nil => rfl
  | cons x rest ih =>
    obtain ⟨hl, hr⟩ := h x (List.mem_cons_self _ _)
    obtain ⟨a, ha⟩ := Option.isSome_iff_exists.mp hl
    obtain ⟨b, hb⟩ := Option.isSome_iff_exists.mp hr
    have ihr := ih (fun y hy => h y (List.mem_cons_of_mem _ hy))
    simp [specOverbankPairs, ha, hb, ihr, Nat.mul_succ]

/-- C4, counterexample: the claim says the resolver produces two pairs
for every element of the resolved container; but a model with one
cross-section whose Manning regions are empty (so both overbank
properties are `None`) resolves the virtual field to zero pairs, not
two. -/
theorem c4_none_side_skipped_counterexample :
    (c4NoRegionsModel.geometry.map (fun g => g.cross_sections.length)) = some 1 ∧
    _resolve_values c4NoRegionsModel "geometry.cross_sections[].manning_n_overbank"
      = [] := ⟨rfl, rfl⟩

/-- C4 (amended): for a collection path with the virtual field
`manning_n_overbank`, each element of the resolved container contributes
a left-overbank pair tagged with suffix "LOB" appended to its location
label when that value is non-`None`, and a right-overbank pair tagged
"ROB" when that value is non-`None` — so a model with 3 cross-sections
whose overbank values are all present yields exactly 6 pairs (and hence
6 Results for such a rule). -/
theorem c4_overbank_expansion (m : ModelData) (g : GeometryFile)
    (hg : m.geometry = some g) :
    _resolve_values m "geometry.cross_sections[].manning_n_overbank" =
      g.cross_sections.flatMap specOverbankPairs ∧
    ((∀ xs ∈ g.cross_sections, xs.manning_n_left.isSome ∧ xs.manning_n_right.isSome) →
      (_resolve_values m "geometry.cross_sections[].manning_n_overbank").length =
        2 * g.cross_sections.length) := by
  have he := resolve_overbank_eq m g hg
  exact ⟨he, fun h => by rw [he]; exact specOverbankPairs_length _ h⟩

/-- C4 witness: the three-cross-section model `c4Model3` yields exactly
six resolved pairs. -/
theorem c4_overbank_expansion_witness :
    (_resolve_values c4Model3 "geometry.cross_sections[].manning_n_overbank" =
      [cXsFull 100, cXsFull 200, cXsFull 300].flatMap specOverbankPairs ∧
    ((∀ xs ∈ [cXsFull 100, cXsFull 200, cXsFull 300],
        xs.manning_n_left.isSome ∧ xs.manning_n_right.isSome) →
      (_resolve_values c4Model3 "geometry.cross_sections[].manning_n_overbank").length =
        2 * [cXsFull 100, cXsFull 200, cXsFull 300].length)) ∧
    2 * [cXsFull 100, cXsFull 200, cXsFull 300].length = 6 :=
  ⟨c4_overbank_expansion c4Model3 { cross_sections := [cXsFull 100, cXsFull 200, cXsFull 300] } rfl, rfl⟩

theorem _make_result_eq {rule : Rule} {i n s c : String}
    (st a ex msg : String)
    (hid : rule.id = some i) (hn : rule.name = some n)
    (hs : rule.severity = some s) (hc : rule.citation = some c) :
    _make_result rule st a ex msg = .ok
      { rule_id := i, rule_name := n, status := st, severity := s,
        actual_value := some a, expected_value := some ex,
        citation := some c, message := some msg } := by
  simp [_make_result, pyItem, hid, hn, hs, hc, Bind.bind, Except.bind,
    Pure.pure, Except.pure]

/-- C5, counterexample: the claim says profile matching case-folds and
trims both sides; but the accepted name `" 100yr"` (leading space) fails
to match the profile `"100yr"` even though the two sides are equal after
trimming and folding both — the code only folds (never trims) the
accepted side, so the handler returns FAIL where the claim predicts
PASS. -/
theorem c5_accepted_not_trimmed_counterexample :
    pyLower (pyStrip "100yr") = pyLower (pyStrip " 100yr") ∧
    (check_profile_exists c5Rule c5Flow).map (fun l => l.map (fun r => r.status)) =
      .ok ["FAIL"] := ⟨rfl, rfl⟩

/-- C5 (amended): with flow present and a non-empty profile list, the
profile-existence handler PASSes exactly when some profile name — after
stripping and case-folding the profile side only — equals some
case-folded (but not stripped) entry of `accepted_names`; otherwise it
FAILs with an actual-value string listing all profile names present.
Absent flow and zero profiles each yield a single SKIPPED result. -/
theorem c5_profile_existence (rule : Rule) (m : ModelData) (ps : Params)
    (i n s c : String)
    (hp : rule.parameters = some ps)
    (hid : rule.id = some i) (hn : rule.name = some n)
    (hs : rule.severity = some s) (hc : rule.citation = some c) :
    (m.flow = Option.none →
      ∃ r, check_profile_exists rule m = .ok [r] ∧ r.status = "SKIPPED") ∧
    (∀ flow, m.flow = some flow → flow.profile_names = [] →
      ∃ r, check_profile_exists rule m = .ok [r] ∧ r.status = "SKIPPED") ∧
    (∀ flow ans, m.flow = some flow → ps.accepted_names = some ans →
      flow.profile_names ≠ [] →
      ∃ r, check_profile_exists rule m = .ok [r] ∧
        (r.status = "PASS" ↔
          ∃ pn ∈ flow.profile_names, pyLower (pyStrip pn) ∈ ans.map pyLower) ∧
        ((¬ ∃ pn ∈ flow.profile_names, pyLower (pyStrip pn) ∈ ans.map pyLower) →
          r.status = "FAIL" ∧
          r.actual_value = some (pyJoin ", " flow.profile_names))) := by
  refine ⟨?_, ?_, ?_⟩
  · intro hf
    refine ⟨{ rule_id := i, rule_name := n, status := "SKIPPED", severity := s,
              actual_value := some "no flow data", expected_value := some "",
              citation := some c,
              message := some "No flow file loaded; cannot check profile names." },
            ?_, rfl⟩
    simp only [check_profile_exists, hf,
      _make_result_eq "SKIPPED" "no flow data" ""
        "No flow file loaded; cannot check profile names." hid hn hs hc,
      Bind.bind, Except.bind, Pure.pure, Except.pure]
  · intro flow hf hpn
    refine ⟨{ rule_id := i, rule_name := n, status := "SKIPPED", severity := s,
              actual_value := some "no profiles",
              expected_value := some (pyJoin ", " (ps.accepted_names.getD [])),
              citation := some c,
              message := some "Flow file contains no profiles." },
            ?_, rfl⟩
    simp only [check_profile_exists, hf, pyItem, hp, hpn,
      Bind.bind, Except.bind, Pure.pure, Except.pure,
      _make_result_eq "SKIPPED" "no profiles"
        (pyJoin ", " (ps.accepted_names.getD []))
        "Flow file contains no profiles." hid hn hs hc]
  · intro flow ans hf ha hne
    cases hpn : flow.profile_names with
    | nil => exact absurd hpn hne
    | cons p0 rest =>
      have hmatch :
          ((p0 :: rest).any fun pn =>
            (ans.map pyLower).contains (pyLower (pyStrip pn))) = true ↔
          ∃ pn ∈ p0 :: rest, pyLower (pyStrip pn) ∈ ans.map pyLower := by
        simp only [List.any_eq_true, List.elem_iff]
      by_cases hm : ((p0 :: rest).any fun pn =>
          (ans.map pyLower).contains (pyLower (pyStrip pn))) = true
      · refine ⟨{ rule_id := i, rule_name := n, status := "PASS", severity := s,
                  actual_value := some (pyJoin ", " (p0 :: rest)),
                  expected_value := some ("one of: " ++ pyJoin ", " ans),
                  citation := some c,
                  message := some ("Required profile found in: " ++
                    pyJoin ", " (p0 :: rest) ++ ".") }, ?_, ?_, ?_⟩
        · simp only [check_profile_exists, hf, pyItem, hp, hpn, ha,
            Option.getD_some, Bind.bind, Except.bind, Pure.pure, Except.pure,
            hm, if_true,
            _make_result_eq "PASS" (pyJoin ", " (p0 :: rest))
              ("one of: " ++ pyJoin ", " ans)
              ("Required profile found in: " ++ pyJoin ", " (p0 :: rest) ++ ".")
              hid hn hs hc]
        · exact iff_of_true rfl (hmatch.mp hm)
        · intro hcon
          exact absurd (hmatch.mp hm) hcon
      · have hm0 : ((p0 :: rest).any fun pn =>
            (ans.map pyLower).contains (pyLower (pyStrip pn))) = false := by
          revert hm
          cases ((p0 :: rest).any fun pn =>
            (ans.map pyLower).contains (pyLower (pyStrip pn))) <;> simp
        refine ⟨{ rule_id := i, rule_name := n, status := "FAIL", severity := s,
                  actual_value := some (pyJoin ", " (p0 :: rest)),
                  expected_value := some ("one of: " ++ pyJoin ", " ans),
                  citation := some c,
                  message := some ("No profile matching the required event was found. Profiles present: " ++
                    pyJoin ", " (p0 :: rest) ++ ".") }, ?_, ?_, ?_⟩
        · simp only [check_profile_exists, hf, pyItem, hp, hpn, ha,
            Option.getD_some, Bind.bind, Except.bind, Pure.pure, Except.pure,
            hm0, Bool.false_eq_true, if_false,
            _make_result_eq "FAIL" (pyJoin ", " (p0 :: rest))
              ("one of: " ++ pyJoin ", " ans)
              ("No profile matching the required event was found. Profiles present: " ++
                pyJoin ", " (p0 :: rest) ++ ".")
              hid hn hs hc]
        · exact iff_of_false (by intro hcon; simp at hcon) (fun hcon => hm (hmatch.mpr hcon))
        · intro hcon
          exact ⟨rfl, rfl⟩

/-- C5 witness: the amended theorem applied to the spec scenario rule
(accepted names "100yr" / "1% annual chance" / "base flood") against a
flow whose only profile is "100YR". -/
theorem c5_profile_existence_witness :
    (c5FlowUpper.flow = Option.none →
      ∃ r, check_profile_exists c5SpecRule c5FlowUpper = .ok [r] ∧
        r.status = "SKIPPED") ∧
    (∀ flow, c5FlowUpper.flow = some flow → flow.profile_names = [] →
      ∃ r, check_profile_exists c5SpecRule c5FlowUpper = .ok [r] ∧
        r.status = "SKIPPED") ∧
    (∀ flow ans, c5FlowUpper.flow = some flow →
      c5SpecParams.accepted_names = some ans →
      flow.profile_names ≠ [] →
      ∃ r, check_profile_exists c5SpecRule c5FlowUpper = .ok [r] ∧
        (r.status = "PASS" ↔
          ∃ pn ∈ flow.profile_names, pyLower (pyStrip pn) ∈ ans.map pyLower) ∧
        ((¬ ∃ pn ∈ flow.profile_names, pyLower (pyStrip pn) ∈ ans.map pyLower) →
          r.status = "FAIL" ∧
          r.actual_value = some (pyJoin ", " flow.profile_names))) :=
  c5_profile_existence c5SpecRule c5FlowUpper c5SpecParams "PROF-2"
    "base flood profile" "error" "cite" rfl rfl rfl rfl rfl

theorem pure_eq_ok {α : Type} {a b : α} (h : (pure a : Except PyErr α) = .ok b) :
    a = b := by
  simpa [Pure.pure, Except.pure] using h

theorem check_profile_exists_ok_ne_nil {rule : Rule} {m : ModelData}
    {l : List RawResult} (h : check_profile_exists rule m = .ok l) : l ≠ [] := by
  unfold check_profile_exists at h
  cases hf : m.flow with
  | none =>
    simp only [hf] at h
    obtain ⟨r, _, h⟩ := exBind_ok h
    have := pure_eq_ok h
    subst this
    simp
  | some flow =>
    simp only [hf] at h
    obtain ⟨ps, _, h⟩ := exBind_ok h
    cases hpn : flow.profile_names with
    | nil =>
      simp only [hpn] at h
      obtain ⟨r, _, h⟩ := exBind_ok h
      have := pure_eq_ok h
      subst this
      simp
    | cons p0 rest =>
      simp only [hpn] at h
      split at h <;>
      · obtain ⟨an, _, h⟩ := exBind_ok h
        obtain ⟨r, _, h⟩ := exBind_ok h
        have := pure_eq_ok h
        subst this
        simp

theorem check_boundary_conditions_defined_ok_ne_nil {rule : Rule} {m : ModelData}
    {l : List RawResult} (h : check_boundary_conditions_defined rule m = .ok l) :
    l ≠ [] := by
  unfold check_boundary_conditions_defined at h
  cases hf : m.flow with
  | none =>
    simp only [hf] at h
    obtain ⟨i, _, h⟩ := exBind_ok h
    obtain ⟨n, _, h⟩ := exBind_ok h
    obtain ⟨s, _, h⟩ := exBind_ok h
    obtain ⟨c, _, h⟩ := exBind_ok h
    have := pure_eq_ok h
    subst this
    simp
  | some flow =>
    simp only [hf] at h
    obtain ⟨i, _, h⟩ := exBind_ok h
    obtain ⟨n, _, h⟩ := exBind_ok h
    obtain ⟨s, _, h⟩ := exBind_ok h
    obtain ⟨c, _, h⟩ := exBind_ok h
    split at h <;> split at h <;>
    · have := pure_eq_ok h
      subst this
      simp

theorem flag_for_manual_review_ok_ne_nil {rule : Rule} {m : ModelData}
    {l : List RawResult} (h : flag_for_manual_review rule m = .ok l) : l ≠ [] := by
  unfold flag_for_manual_review at h
  obtain ⟨ps, _, h⟩ := exBind_ok h
  obtain ⟨i, _, h⟩ := exBind_ok h
  obtain ⟨n, _, h⟩ := exBind_ok h
  obtain ⟨c, _, h⟩ := exBind_ok h
  have := pure_eq_ok h
  subst this
  simp

theorem handlerFor_ok_ne_nil {name : String}
    {h0 : Rule → ModelData → Except PyErr (List RawResult)}
    (hs : handlerFor name = some h0)
    {rule : Rule} {m : ModelData} {raw : List RawResult}
    (hraw : h0 rule m = .ok raw) : raw ≠ [] := by
  unfold handlerFor at hs
  split at hs
  · simp only [Option.some.injEq] at hs
    subst hs
    exact check_profile_exists_ok_ne_nil hraw
  · split at hs
    · simp only [Option.some.injEq] at hs
      subst hs
      exact check_profile_exists_ok_ne_nil hraw
    · split at hs
      · simp only [Option.some.injEq] at hs
        subst hs
        exact check_boundary_conditions_defined_ok_ne_nil hraw
      · split at hs
        · simp only [Option.some.injEq] at hs
          subst hs
          exact flag_for_manual_review_ok_ne_nil hraw
        · exact absurd hs (by simp)

theorem _run_custom_ok_ne_nil {rule : Rule} {m : ModelData} {l : List RuleResult}
    (h : _run_custom rule m = .ok l) : l ≠ [] := by
  unfold _run_custom at h
  dsimp only [] at h
  split at h
  · obtain ⟨r, _, h⟩ := exBind_ok h
    have := pure_eq_ok h
    subst this
    simp
  · next h0 hs =>
    obtain ⟨raw, hraw, h⟩ := exBind_ok h
    have := pure_eq_ok h
    subst this
    simpa using handlerFor_ok_ne_nil hs hraw

theorem evalPairs_ok_ne_nil {rule : Rule} {ct : String} {vl : PyObj × String}
    {vs : List (PyObj × String)} {l : List RuleResult}
    (h : evalPairs rule ct (vl :: vs) = .ok l) : l ≠ [] := by
  unfold evalPairs at h
  obtain ⟨r, _, h⟩ := exBind_ok h
  obtain ⟨rs, _, h⟩ := exBind_ok h
  have := pure_eq_ok h
  subst this
  simp

theorem _evaluate_rule_ok_ne_nil {rule : Rule} {m : ModelData}
    {l : List RuleResult} (h : _evaluate_rule rule m = .ok l) : l ≠ [] := by
  unfold _evaluate_rule at h
  dsimp only [] at h
  split at h
  · exact _run_custom_ok_ne_nil h
  · split at h
    · obtain ⟨r, _, h⟩ := exBind_ok h
      have := pure_eq_ok h
      subst this
      simp
    · next head tail heq =>
      rw [heq] at h
      exact evalPairs_ok_ne_nil h

theorem resultsForRule_ne_nil (rule : Rule) (m : ModelData) :
    resultsForRule rule m ≠ [] := by
  unfold resultsForRule
  split
  · next rs heq => exact _evaluate_rule_ok_ne_nil heq
  · simp

/-- C7: a run always completes with at least one result per loaded rule —
`evaluateRules` is total, every rule contributes a non-empty result list
(worst case a single SKIPPED), so the returned list is non-empty whenever
the rule list is, and no partial/aborted state is ever exposed. -/
theorem c7_every_rule_yields_results (rules : List Rule) (m : ModelData)
    (h : rules ≠ []) :
    evaluateRules rules m ≠ [] ∧ ∀ rule ∈ rules, resultsForRule rule m ≠ [] := by
  refine ⟨?_, fun rule _ => resultsForRule_ne_nil rule m⟩
  cases rules with
  | nil => exact absurd rfl h
  | cons r rs =>
    simp only [evaluateRules, List.flatMap_cons]
    intro hcon
    exact resultsForRule_ne_nil r m (List.append_eq_nil.mp hcon).1

/-- C7 witness: a one-rule list against the completely empty model still
yields a non-empty result list. -/
theorem c7_every_rule_yields_results_witness :
    evaluateRules [cOkRule] mEmpty ≠ [] ∧
    ∀ rule ∈ [cOkRule], resultsForRule rule mEmpty ≠ [] :=
  c7_every_rule_yields_results [cOkRule] mEmpty (List.cons_ne_nil _ _)
